import Mathlib

/-!
Verification of the persistence layer of the opbnb-place pixel-canvas API
(`src/models/scylla_models.rs`). The module shards the canvas into four
logical partitions, writes a player row and a canvas-cell row on every
placement, and reads them back through point lookups. We embed the
routing computation, the update path and the two read paths as pure Lean
functions over an explicit database state, with the asynchronous write
outcomes and the clock passed in as parameters.
-/

namespace OpbnbPlace

/-- Error taxonomy of `err_models::VpError` as used by `scylla_models.rs`.
Modelled from the spec: `err_models.rs` is not in the sources; §7 lists
connectivity/transport errors, range errors, the domain not-found errors
`InvalidUser` and `NoPixelData`, and a decode error distinct from
not-found. `scyllaTypeErr` carries the row-decoding error payload
(`FirstRowTypedError` other than `RowsEmpty`); `rangeError` is the
`From<TryFromIntError>` conversion used by the `?` on `i32::try_from`;
`transport` is a database/network failure surfaced by `execute`. -/
inductive VpError where
  | invalidUser
  | noPixelData
  | scyllaTypeErr (e : Nat)
  | rangeError
  | transport (msg : String)
  deriving DecidableEq, Repr

/-- Coordinate pair carried by a placement request (`req.loc`), fields
`x` and `y` of Rust type `u32`, embedded as `Nat` (values below 2^32). -/
structure Loc where
  x : Nat
  y : Nat
  deriving DecidableEq, Repr

/-- Placement request `p_models::UpdatePixel`.
Modelled from the spec: `p_models.rs` is not in the sources. §3 gives a
color that is a bounded integer ≤ 255 (the source comments call the
`i32::try_from(req.color)` conversion infallible, matching a `u8`
field), a coordinate pair, and an owner address that may be absent
(line 102 checks `req.address.as_ref().ok_or_else(...)`). -/
structure UpdatePixel where
  loc : Loc
  color : Fin 256
  address : Option String

/-- Row of the `player` table (`UserDetails`, lines 152-159):
address text, x int, y int, color int, last_placed timestamp. The `int`
columns are `i32` embedded as `Int`, the timestamp an `i64` as `Int`. -/
structure UserDetails where
  address : String
  x : Int
  y : Int
  color : Int
  last_placed : Int
  deriving DecidableEq, Repr

/-- The `pixel_data` user-defined type (lines 161-166): address text,
color int, last_placed timestamp. -/
structure PixelData where
  address : String
  color : Int
  last_placed : Int
  deriving DecidableEq, Repr

/-- Logical database state: the `opbnbplace.player` table keyed by
address, and the `opbnbplace.canvas` table keyed by
(canvas_part, x, y). -/
structure DbState where
  player : String → Option UserDetails
  canvas : String × Int × Int → Option PixelData

/-- The empty database (both tables have no rows). -/
def DbState.empty : DbState :=
  { player := fun _ => none, canvas := fun _ => none }

/-- Upsert of one `player` row (the prepared `insert_user` statement,
primary key `address`: an existing row for the address is overwritten). -/
def DbState.setPlayer (db : DbState) (a : String) (u : UserDetails) : DbState :=
  { db with player := fun a2 => if a2 = a then some u else db.player a2 }

/-- Upsert of one `canvas` row (the prepared `insert_pixel` statement,
primary key `(canvas_part, x, y)`). -/
def DbState.setCell (db : DbState) (k : String × Int × Int) (pd : PixelData) : DbState :=
  { db with canvas := fun k2 => if k2 = k then some pd else db.canvas k2 }

/-- The `ScyllaManager` state relevant to the embedded operations: the
canvas midpoint `dim_mid : u32` computed as `canvas_dim / 2`
(line 18). The session and prepared statements are modelled by the
explicit `DbState` and outcome parameters. -/
structure ScyllaManager where
  dim_mid : Nat

/-- The static partition-label array `canvas_part` (line 72). -/
def canvas_part : List String := ["v_part1", "v_part2", "v_part3", "v_part4"]

/-- `i32::try_from` on a `u32` value (lines 98 and 130-131): succeeds
exactly when the value fits in a 32-bit signed integer, otherwise the
`?` operator surfaces the conversion as a range error. -/
def i32_try_from_u32 (x : Nat) : Except VpError Int :=
  if x < 2 ^ 31 then .ok (Int.ofNat x) else .error .rangeError

/-- `i32::try_from` on the request color (line 100). Modelled from the
spec: the color field is a `u8` (§3: bounded integer ≤ 255), so the
conversion to `i32` is total; the source comment on line 99 says
"infallible". -/
def i32_try_from_u8 (c : Fin 256) : Except VpError Int :=
  if c.val < 2 ^ 31 then .ok (Int.ofNat c.val) else .error .rangeError

/-- Partition index computed inside `update_db` (lines 111-116):
`match (req.loc.x <= self.dim_mid, req.loc.y <= self.dim_mid)` mapping
(true,true) ↦ 0, (true,false) ↦ 1, (false,true) ↦ 2, (false,false) ↦ 3. -/
def update_pindex (dim_mid : Nat) (req : UpdatePixel) : Nat :=
  match (decide (req.loc.x ≤ dim_mid), decide (req.loc.y ≤ dim_mid)) with
  | (true, true) => 0
  | (true, false) => 1
  | (false, true) => 2
  | (false, false) => 3

/-- Partition index computed inside `get_pixel` (lines 132-137):
`match (x <= self.dim_mid, y <= self.dim_mid)` with the same four arms. -/
def get_pixel_pindex (dim_mid : Nat) (x y : Nat) : Nat :=
  match (decide (x ≤ dim_mid), decide (y ≤ dim_mid)) with
  | (true, true) => 0
  | (true, false) => 1
  | (false, true) => 2
  | (false, false) => 3

/-- `ScyllaManager::update_db` (lines 97-128). Parameters beyond the
request: `now` is the value of `Utc::now().timestamp()` taken once at
line 103; `userRes` and `cellRes` are the outcomes of the two
concurrently issued `session.execute` calls joined by `tokio::try_join!`
(lines 106-126). Returns `none` when the Rust code would panic (the
`.unwrap()` on line 100), otherwise `some` of the `Result` value and the
database state after the call: a write whose own outcome is `ok` has
landed, a failed or never-issued write has not, and `try_join!` fails
the whole call as soon as either outcome is an error (user error
reported first, matching a deterministic resolution of the join). -/
def update_db (m : ScyllaManager) (db : DbState) (req : UpdatePixel) (now : Int)
    (userRes cellRes : Except VpError Unit) :
    Option (Except VpError Unit × DbState) :=
  match i32_try_from_u32 req.loc.x with
  | .error e => some (.error e, db)
  | .ok ix =>
  match i32_try_from_u32 req.loc.y with
  | .error e => some (.error e, db)
  | .ok iy =>
  match i32_try_from_u8 req.color with
  | .error _ => none
  | .ok color =>
  match req.address with
  | none => some (.error .invalidUser, db)
  | some address =>
    let last_placed := now
    let pindex := update_pindex m.dim_mid req
    let pixel_data : PixelData :=
      { address := address, color := color, last_placed := last_placed }
    let db1 :=
      match userRes with
      | .ok _ => db.setPlayer address
          { address := address, x := ix, y := iy, color := color,
            last_placed := last_placed }
      | .error _ => db
    let db2 :=
      match cellRes with
      | .ok _ => db1.setCell (canvas_part.getD pindex "", ix, iy) pixel_data
      | .error _ => db1
    match userRes, cellRes with
    | .ok _, .ok _ => some (.ok (), db2)
    | .error e, _ => some (.error e, db2)
    | .ok _, .error e => some (.error e, db2)

/-- Result of `rows.first_row_typed::<T>()`: a decoded row, the
`RowsEmpty` case, or some other `FirstRowTypedError` (a row came back
but did not decode to the expected shape). -/
inductive FirstRowTypedResult (α : Type) where
  | ok (a : α)
  | rowsEmpty
  | typeErr (e : Nat)

/-- The match on `first_row_typed::<UserDetails>` in `get_user`
(lines 91-95): a decoded row is returned, `RowsEmpty` becomes
`InvalidUser`, any other decoding error becomes `ScyllaTypeErr`. -/
def handle_user_rows (res : FirstRowTypedResult UserDetails) :
    Except VpError UserDetails :=
  match res with
  | .ok r => .ok r
  | .rowsEmpty => .error .invalidUser
  | .typeErr e => .error (.scyllaTypeErr e)

/-- The match on `first_row_typed::<(PixelData,)>` in `get_pixel`
(lines 143-147): a decoded row is returned, `RowsEmpty` becomes
`NoPixelData`, any other decoding error becomes `ScyllaTypeErr`. -/
def handle_pixel_rows (res : FirstRowTypedResult PixelData) :
    Except VpError PixelData :=
  match res with
  | .ok r => .ok r
  | .rowsEmpty => .error .noPixelData
  | .typeErr e => .error (.scyllaTypeErr e)

/-- Rows returned by the prepared `get_user` select for an address, as
seen by `first_row_typed`: the stored row if present, `RowsEmpty`
otherwise (the table is keyed by address, so a point lookup returns at
most one row). -/
def userRowsOf (db : DbState) (address : String) :
    FirstRowTypedResult UserDetails :=
  match db.player address with
  | some r => .ok r
  | none => .rowsEmpty

/-- `ScyllaManager::get_user` (lines 88-96): execute the point lookup,
then dispatch on the `first_row_typed` result. -/
def get_user (db : DbState) (address : String) : Except VpError UserDetails :=
  handle_user_rows (userRowsOf db address)

/-- Rows returned by the prepared `get_pixel` select for a canvas key. -/
def pixelRowsOf (db : DbState) (k : String × Int × Int) :
    FirstRowTypedResult PixelData :=
  match db.canvas k with
  | some r => .ok r
  | none => .rowsEmpty

/-- `ScyllaManager::get_pixel` (lines 129-148): convert `x` and `y` to
`i32` (the `?` surfaces a range error before any query is issued),
route to a partition, execute the point lookup on
`(canvas_part[pindex], ix, iy)`, then dispatch on the
`first_row_typed` result. -/
def get_pixel (m : ScyllaManager) (db : DbState) (x y : Nat) :
    Except VpError PixelData :=
  match i32_try_from_u32 x with
  | .error e => .error e
  | .ok ix =>
  match i32_try_from_u32 y with
  | .error e => .error e
  | .ok iy =>
    let pindex := get_pixel_pindex m.dim_mid x y
    handle_pixel_rows (pixelRowsOf db (canvas_part.getD pindex "", ix, iy))

/-! ## Helper lemmas -/

/-- Closed form of the `get_pixel` routing match as nested conditionals. -/
theorem get_pixel_pindex_eq (mid x y : Nat) :
    get_pixel_pindex mid x y =
      if x ≤ mid then (if y ≤ mid then 0 else 1)
      else (if y ≤ mid then 2 else 3) := by
  unfold get_pixel_pindex
  by_cases hx : x ≤ mid <;> by_cases hy : y ≤ mid <;> simp [hx, hy]

/-- The two routing matches (update path, read path) are the same
function of the coordinate and the midpoint. -/
theorem pindex_agree (mid : Nat) (req : UpdatePixel) :
    update_pindex mid req = get_pixel_pindex mid req.loc.x req.loc.y := rfl

/-- The color column conversion never fails: a `u8` value fits in `i32`. -/
theorem i32_try_from_u8_ok (c : Fin 256) :
    i32_try_from_u8 c = .ok (Int.ofNat c.val) := by
  have hc : c.val < 2 ^ 31 := lt_trans c.isLt (by norm_num)
  simp only [i32_try_from_u8, if_pos hc]

/-- Evaluation of `update_db` once validation has passed: both writes
are applied or skipped according to their own outcome and the call
result is the `try_join!` of the two outcomes. -/
theorem update_db_eval (m : ScyllaManager) (db : DbState) (req : UpdatePixel)
    (now : Int) (userRes cellRes : Except VpError Unit) (addr : String)
    (hx : req.loc.x < 2 ^ 31) (hy : req.loc.y < 2 ^ 31)
    (ha : req.address = some addr) :
    update_db m db req now userRes cellRes =
      some ((match userRes, cellRes with
             | .ok _, .ok _ => .ok ()
             | .error e, _ => .error e
             | .ok _, .error e => .error e),
        (match cellRes with
         | .ok _ =>
            (match userRes with
             | .ok _ => db.setPlayer addr
                 { address := addr, x := Int.ofNat req.loc.x,
                   y := Int.ofNat req.loc.y, color := Int.ofNat req.color.val,
                   last_placed := now }
             | .error _ => db).setCell
              (canvas_part.getD (update_pindex m.dim_mid req) "",
                Int.ofNat req.loc.x, Int.ofNat req.loc.y)
              { address := addr, color := Int.ofNat req.color.val,
                last_placed := now }
         | .error _ =>
            match userRes with
            | .ok _ => db.setPlayer addr
                { address := addr, x := Int.ofNat req.loc.x,
                  y := Int.ofNat req.loc.y, color := Int.ofNat req.color.val,
                  last_placed := now }
            | .error _ => db)) := by
  unfold update_db
  rw [show i32_try_from_u32 req.loc.x = .ok (Int.ofNat req.loc.x) from by
        simp only [i32_try_from_u32, if_pos hx],
      show i32_try_from_u32 req.loc.y = .ok (Int.ofNat req.loc.y) from by
        simp only [i32_try_from_u32, if_pos hy],
      i32_try_from_u8_ok, ha]
  cases userRes <;> cases cellRes <;> rfl

/-- Specialisation of `update_db_eval` to the case where both writes
succeed. -/
theorem update_db_ok_eq (m : ScyllaManager) (db : DbState) (req : UpdatePixel)
    (now : Int) (addr : String)
    (hx : req.loc.x < 2 ^ 31) (hy : req.loc.y < 2 ^ 31)
    (ha : req.address = some addr) :
    update_db m db req now (.ok ()) (.ok ()) =
      some (.ok (),
        (db.setPlayer addr
            { address := addr, x := Int.ofNat req.loc.x,
              y := Int.ofNat req.loc.y, color := Int.ofNat req.color.val,
              last_placed := now }).setCell
          (canvas_part.getD (update_pindex m.dim_mid req) "",
            Int.ofNat req.loc.x, Int.ofNat req.loc.y)
          { address := addr, color := Int.ofNat req.color.val,
            last_placed := now }) :=
  update_db_eval m db req now (.ok ()) (.ok ()) addr hx hy ha

/-- When the x coordinate is out of `i32` range, `update_db` returns the
range error on the unchanged state. -/
theorem update_db_range_x (m : ScyllaManager) (db : DbState) (req : UpdatePixel)
    (now : Int) (userRes cellRes : Except VpError Unit)
    (hx : 2 ^ 31 ≤ req.loc.x) :
    update_db m db req now userRes cellRes = some (.error .rangeError, db) := by
  unfold update_db
  rw [show i32_try_from_u32 req.loc.x = .error .rangeError from by
        simp only [i32_try_from_u32, if_neg (Nat.not_lt.mpr hx)]]

/-- When the y coordinate is out of `i32` range (x in range), `update_db`
returns the range error on the unchanged state. -/
theorem update_db_range_y (m : ScyllaManager) (db : DbState) (req : UpdatePixel)
    (now : Int) (userRes cellRes : Except VpError Unit)
    (hx : req.loc.x < 2 ^ 31) (hy : 2 ^ 31 ≤ req.loc.y) :
    update_db m db req now userRes cellRes = some (.error .rangeError, db) := by
  unfold update_db
  rw [show i32_try_from_u32 req.loc.x = .ok (Int.ofNat req.loc.x) from by
        simp only [i32_try_from_u32, if_pos hx],
      show i32_try_from_u32 req.loc.y = .error .rangeError from by
        simp only [i32_try_from_u32, if_neg (Nat.not_lt.mpr hy)]]

/-! ## Test fixtures (concrete inputs for the witnesses) -/

/-- A manager built with canvas dimension 1000, so `dim_mid = 500`. -/
def mTest : ScyllaManager := { dim_mid := 500 }

/-- The round-trip request of the spec:
`{address:"A", x:5, y:5, color:3}`. -/
def reqTest : UpdatePixel :=
  { loc := { x := 5, y := 5 }, color := 3, address := some "A" }

/-- The database state reached from the empty database by
`update_db mTest _ reqTest 10` with both writes succeeding. -/
def dbAfterTest : DbState :=
  (DbState.empty.setPlayer "A"
      { address := "A", x := 5, y := 5, color := 3, last_placed := 10 }).setCell
    ("v_part1", 5, 5) { address := "A", color := 3, last_placed := 10 }

/-! ## Claims -/

/-- C1: for every coordinate (x, y) and fixed dim_mid, the partition
router is a deterministic total function into the four partitions
obeying the quadrant rule with inclusive boundary: x≤dim_mid and
y≤dim_mid routes to part 1 (`v_part1`), x≤dim_mid and y>dim_mid to
part 2, x>dim_mid and y≤dim_mid to part 3, x>dim_mid and y>dim_mid to
part 4; coordinates with x == dim_mid or y == dim_mid belong to the
lower quadrant (they route exactly as the interior of the ≤ side). -/
theorem C1_partition_router (mid x y : Nat) :
    get_pixel_pindex mid x y < 4 ∧
    (x ≤ mid → y ≤ mid →
      canvas_part.getD (get_pixel_pindex mid x y) "" = "v_part1") ∧
    (x ≤ mid → mid < y →
      canvas_part.getD (get_pixel_pindex mid x y) "" = "v_part2") ∧
    (mid < x → y ≤ mid →
      canvas_part.getD (get_pixel_pindex mid x y) "" = "v_part3") ∧
    (mid < x → mid < y →
      canvas_part.getD (get_pixel_pindex mid x y) "" = "v_part4") ∧
    get_pixel_pindex mid mid y = get_pixel_pindex mid 0 y ∧
    get_pixel_pindex mid x mid = get_pixel_pindex mid x 0 := by
  simp only [get_pixel_pindex_eq, canvas_part]
  by_cases hx : x ≤ mid <;> by_cases hy : y ≤ mid <;>
    simp [hx, hy, Nat.le_refl, Nat.zero_le]

/-- C1 witness: concrete routings with `dim_mid = 4`, including both
boundary coordinates. -/
theorem C1_partition_router_witness :
    canvas_part.getD (get_pixel_pindex 4 2 7) "" = "v_part2" ∧
    canvas_part.getD (get_pixel_pindex 4 9 3) "" = "v_part3" ∧
    get_pixel_pindex 4 4 9 = get_pixel_pindex 4 0 9 ∧
    canvas_part.getD (get_pixel_pindex 4 4 4) "" = "v_part1" :=
  ⟨(C1_partition_router 4 2 7).2.2.1 (by decide) (by decide),
   (C1_partition_router 4 9 3).2.2.2.1 (by decide) (by decide),
   (C1_partition_router 4 4 9).2.2.2.2.2.1,
   (C1_partition_router 4 4 4).2.1 (by decide) (by decide)⟩

/-- C2: for every coordinate and the same dim_mid, the partition index
chosen by the write path (`update_db`, lines 111-116) equals the
partition index chosen by the read path (`get_pixel`, lines 132-137):
the two routing computations are extensionally equal. -/
theorem C2_router_paths_agree (mid : Nat) (req : UpdatePixel) :
    update_pindex mid req = get_pixel_pindex mid req.loc.x req.loc.y := rfl

/-- C3: a successful `update_db` followed by `get_pixel` at the same
coordinate returns a pixel value with the request's address and color,
and `get_user` for that address returns the request's x, y and color
with a `last_placed` timestamp ≥ the time `t0` observed before the
call (the call's clock reading `now` satisfies `t0 ≤ now` since the
clock does not go back). -/
theorem C3_round_trip (m : ScyllaManager) (db : DbState) (req : UpdatePixel)
    (t0 now : Int) (addr : String) (db2 : DbState)
    (ha : req.address = some addr) (ht : t0 ≤ now)
    (hupd : update_db m db req now (.ok ()) (.ok ()) = some (.ok (), db2)) :
    (∃ pd, get_pixel m db2 req.loc.x req.loc.y = .ok pd ∧
      pd.address = addr ∧ pd.color = Int.ofNat req.color.val) ∧
    (∃ u, get_user db2 addr = .ok u ∧
      u.x = Int.ofNat req.loc.x ∧ u.y = Int.ofNat req.loc.y ∧
      u.color = Int.ofNat req.color.val ∧ t0 ≤ u.last_placed) := by
  by_cases hx : req.loc.x < 2 ^ 31
  · by_cases hy : req.loc.y < 2 ^ 31
    · rw [update_db_ok_eq m db req now addr hx hy ha] at hupd
      have hdb : db2 =
          (db.setPlayer addr
              { address := addr, x := Int.ofNat req.loc.x,
                y := Int.ofNat req.loc.y, color := Int.ofNat req.color.val,
                last_placed := now }).setCell
            (canvas_part.getD (update_pindex m.dim_mid req) "",
              Int.ofNat req.loc.x, Int.ofNat req.loc.y)
            { address := addr, color := Int.ofNat req.color.val,
              last_placed := now } := by
        simpa using hupd.symm
      subst hdb
      constructor
      · refine ⟨{ address := addr, color := Int.ofNat req.color.val,
                  last_placed := now }, ?_, rfl, rfl⟩
        unfold get_pixel
        rw [show i32_try_from_u32 req.loc.x = .ok (Int.ofNat req.loc.x) from by
              simp only [i32_try_from_u32, if_pos hx],
            show i32_try_from_u32 req.loc.y = .ok (Int.ofNat req.loc.y) from by
              simp only [i32_try_from_u32, if_pos hy]]
        simp [pixelRowsOf, DbState.setCell, handle_pixel_rows, pindex_agree]
      · refine ⟨{ address := addr, x := Int.ofNat req.loc.x,
                  y := Int.ofNat req.loc.y, color := Int.ofNat req.color.val,
                  last_placed := now }, ?_, rfl, rfl, rfl, ht⟩
        unfold get_user userRowsOf
        simp [DbState.setCell, DbState.setPlayer, handle_user_rows]
    · rw [update_db_range_y m db req now _ _ hx (Nat.not_lt.mp hy)] at hupd
      simp at hupd
  · rw [update_db_range_x m db req now _ _ (Nat.not_lt.mp hx)] at hupd
    simp at hupd

/-- C3 witness: the spec's round trip `{address:"A", x:5, y:5, color:3}`
performed at time 10 on the empty database, observed time-before 0. -/
theorem C3_round_trip_witness :
    (∃ pd, get_pixel mTest dbAfterTest 5 5 = .ok pd ∧
      pd.address = "A" ∧ pd.color = Int.ofNat 3) ∧
    (∃ u, get_user dbAfterTest "A" = .ok u ∧
      u.x = Int.ofNat 5 ∧ u.y = Int.ofNat 5 ∧
      u.color = Int.ofNat 3 ∧ (0 : Int) ≤ u.last_placed) :=
  C3_round_trip mTest DbState.empty reqTest 0 10 "A" dbAfterTest rfl
    (by norm_num) rfl

/-- C4: after a successful `update_db` call, the player record for the
request's address and the canvas cell record for the request's
coordinate contain the same address, the same color and the same
timestamp, that timestamp being the single clock reading `now` taken
once during the call and shared by both writes. -/
theorem C4_records_agree (m : ScyllaManager) (db : DbState) (req : UpdatePixel)
    (now : Int) (addr : String) (db2 : DbState)
    (ha : req.address = some addr)
    (hupd : update_db m db req now (.ok ()) (.ok ()) = some (.ok (), db2)) :
    ∃ u pd, db2.player addr = some u ∧
      db2.canvas (canvas_part.getD (update_pindex m.dim_mid req) "",
        Int.ofNat req.loc.x, Int.ofNat req.loc.y) = some pd ∧
      u.address = pd.address ∧ u.color = pd.color ∧
      u.last_placed = pd.last_placed ∧ pd.last_placed = now := by
  by_cases hx : req.loc.x < 2 ^ 31
  · by_cases hy : req.loc.y < 2 ^ 31
    · rw [update_db_ok_eq m db req now addr hx hy ha] at hupd
      have hdb : db2 =
          (db.setPlayer addr
              { address := addr, x := Int.ofNat req.loc.x,
                y := Int.ofNat req.loc.y, color := Int.ofNat req.color.val,
                last_placed := now }).setCell
            (canvas_part.getD (update_pindex m.dim_mid req) "",
              Int.ofNat req.loc.x, Int.ofNat req.loc.y)
            { address := addr, color := Int.ofNat req.color.val,
              last_placed := now } := by
        simpa using hupd.symm
      subst hdb
      refine ⟨{ address := addr, x := Int.ofNat req.loc.x,
                y := Int.ofNat req.loc.y, color := Int.ofNat req.color.val,
                last_placed := now },
              { address := addr, color := Int.ofNat req.color.val,
                last_placed := now }, ?_, ?_, rfl, rfl, rfl, rfl⟩
      · simp [DbState.setCell, DbState.setPlayer]
      · simp [DbState.setCell]
    · rw [update_db_range_y m db req now _ _ hx (Nat.not_lt.mp hy)] at hupd
      simp at hupd
  · rw [update_db_range_x m db req now _ _ (Nat.not_lt.mp hx)] at hupd
    simp at hupd

/-- C4 witness: the concrete round-trip update, whose player row and
cell row both read address "A", color 3, timestamp 10. -/
theorem C4_records_agree_witness :
    ∃ u pd, dbAfterTest.player "A" = some u ∧
      dbAfterTest.canvas (canvas_part.getD (update_pindex mTest.dim_mid reqTest) "",
        Int.ofNat 5, Int.ofNat 5) = some pd ∧
      u.address = pd.address ∧ u.color = pd.color ∧
      u.last_placed = pd.last_placed ∧ pd.last_placed = 10 :=
  C4_records_agree mTest DbState.empty reqTest 10 "A" dbAfterTest rfl rfl

/-- C5: for a request that passes validation, `update_db` returns
success iff both the player-upsert and the cell-upsert succeed; if
either of the two writes fails, the whole call returns an error rather
than a partial-success result. -/
theorem C5_join_failure (m : ScyllaManager) (db : DbState) (req : UpdatePixel)
    (now : Int) (userRes cellRes : Except VpError Unit) (addr : String)
    (hx : req.loc.x < 2 ^ 31) (hy : req.loc.y < 2 ^ 31)
    (ha : req.address = some addr) :
    ((∃ db2, update_db m db req now userRes cellRes = some (.ok (), db2)) ↔
      userRes = .ok () ∧ cellRes = .ok ()) ∧
    (∀ e, userRes = .error e ∨ cellRes = .error e →
      ∃ e2 db2, update_db m db req now userRes cellRes
        = some (.error e2, db2)) := by
  rw [update_db_eval m db req now userRes cellRes addr hx hy ha]
  cases userRes <;> cases cellRes <;> simp

/-- C5 witness: with a failing cell write the call errors; with both
writes succeeding it succeeds. -/
theorem C5_join_failure_witness :
    (((∃ db2, update_db mTest DbState.empty reqTest 10 (.ok ())
          (.error (.transport "timeout")) = some (.ok (), db2)) ↔
        (Except.ok () : Except VpError Unit) = .ok () ∧
        (Except.error (VpError.transport "timeout") : Except VpError Unit)
          = .ok ()) ∧
      (∀ e, (Except.ok () : Except VpError Unit) = .error e ∨
          (Except.error (VpError.transport "timeout") : Except VpError Unit)
            = .error e →
        ∃ e2 db2, update_db mTest DbState.empty reqTest 10 (.ok ())
          (.error (.transport "timeout")) = some (.error e2, db2))) :=
  C5_join_failure mTest DbState.empty reqTest 10 (.ok ())
    (.error (.transport "timeout")) "A" (by norm_num [reqTest])
    (by norm_num [reqTest]) rfl

/-- C6: when x or y exceeds the `i32` range of the storage column,
`update_db` fails with the range error (never silently truncating) and
leaves the database unchanged: no write to either table is issued
before the failure, whatever the would-be write outcomes. -/
theorem C6_range_no_partial_write (m : ScyllaManager) (db : DbState)
    (req : UpdatePixel) (now : Int) (userRes cellRes : Except VpError Unit)
    (h : 2 ^ 31 ≤ req.loc.x ∨ 2 ^ 31 ≤ req.loc.y) :
    update_db m db req now userRes cellRes = some (.error .rangeError, db) := by
  rcases h with h | h
  · exact update_db_range_x m db req now userRes cellRes h
  · by_cases hx : req.loc.x < 2 ^ 31
    · exact update_db_range_y m db req now userRes cellRes hx h
    · exact update_db_range_x m db req now userRes cellRes (Nat.not_lt.mp hx)

/-- C6 witness: a request at x = 2^31 fails with the range error on the
unchanged empty database. -/
theorem C6_range_no_partial_write_witness :
    update_db mTest DbState.empty
      { loc := { x := 2 ^ 31, y := 0 }, color := 3, address := some "A" }
      10 (.ok ()) (.ok ())
      = some (.error .rangeError, DbState.empty) :=
  C6_range_no_partial_write mTest DbState.empty
    { loc := { x := 2 ^ 31, y := 0 }, color := 3, address := some "A" }
    10 (.ok ()) (.ok ()) (Or.inl (by norm_num))

/-- C7: the color conversion at line 100 is total over the color field's
domain (a `u8`): for every request it yields exactly the color value
with no truncation, so the set of requests whose color cannot be
represented in the `int` column is empty, the claim's range-error
obligation is met vacuously, and the `.unwrap()` can never panic —
`update_db` always returns a value (`isSome`) instead of aborting. -/
theorem C7_color_never_truncated_never_panics (m : ScyllaManager)
    (db : DbState) (req : UpdatePixel) (now : Int)
    (userRes cellRes : Except VpError Unit) :
    i32_try_from_u8 req.color = .ok (Int.ofNat req.color.val) ∧
    (update_db m db req now userRes cellRes).isSome = true := by
  refine ⟨i32_try_from_u8_ok req.color, ?_⟩
  unfold update_db
  cases hx : i32_try_from_u32 req.loc.x with
  | error e => simp
  | ok ix =>
    cases hy : i32_try_from_u32 req.loc.y with
    | error e => simp
    | ok iy =>
      rw [i32_try_from_u8_ok]
      cases req.address with
      | none => simp
      | some a => cases userRes <;> cases cellRes <;> simp

/-- C8 counterexample: a request with an absent address but an
out-of-range x coordinate makes `update_db` return the range error, not
the "invalid user" error — the coordinate conversion at line 98 runs
before the address check at line 102, so the claim as stated fails. -/
theorem C8_counterexample :
    update_db mTest DbState.empty
      { loc := { x := 2 ^ 31, y := 0 }, color := 0, address := none }
      0 (.ok ()) (.ok ())
      = some (.error .rangeError, DbState.empty) ∧
    VpError.rangeError ≠ VpError.invalidUser := by
  constructor
  · rfl
  · decide

/-- C8 amended: for every placement request whose address field is
absent and whose coordinates are representable as `i32`, `update_db`
returns the domain "invalid user" error and leaves the database
unchanged (the address check happens before any write is issued). -/
theorem C8_missing_address (m : ScyllaManager) (db : DbState)
    (req : UpdatePixel) (now : Int) (userRes cellRes : Except VpError Unit)
    (hx : req.loc.x < 2 ^ 31) (hy : req.loc.y < 2 ^ 31)
    (ha : req.address = none) :
    update_db m db req now userRes cellRes
      = some (.error .invalidUser, db) := by
  unfold update_db
  rw [show i32_try_from_u32 req.loc.x = .ok (Int.ofNat req.loc.x) from by
        simp only [i32_try_from_u32, if_pos hx],
      show i32_try_from_u32 req.loc.y = .ok (Int.ofNat req.loc.y) from by
        simp only [i32_try_from_u32, if_pos hy],
      i32_try_from_u8_ok, ha]

/-- C8 witness: an in-range request with no address yields the invalid
user error on the unchanged empty database. -/
theorem C8_missing_address_witness :
    update_db mTest DbState.empty
      { loc := { x := 5, y := 5 }, color := 3, address := none }
      10 (.ok ()) (.ok ())
      = some (.error .invalidUser, DbState.empty) :=
  C8_missing_address mTest DbState.empty
    { loc := { x := 5, y := 5 }, color := 3, address := none }
    10 (.ok ()) (.ok ()) (by norm_num) (by norm_num) rfl

/-- C9: an address with no player row makes `get_user` return the domain
`InvalidUser` error (not a decode error, not a success); a coordinate
with no cell row makes `get_pixel` return the domain `NoPixelData`
error; and in both operations a returned row that does not decode to
the expected shape yields the typed `ScyllaTypeErr` error, a
constructor distinct from both not-found errors. -/
theorem C9_not_found_vs_decode (m : ScyllaManager) (db : DbState)
    (addr : String) (x y : Nat) (e e2 : Nat)
    (hu : db.player addr = none)
    (hx : x < 2 ^ 31) (hy : y < 2 ^ 31)
    (hp : db.canvas (canvas_part.getD (get_pixel_pindex m.dim_mid x y) "",
      Int.ofNat x, Int.ofNat y) = none) :
    get_user db addr = .error .invalidUser ∧
    get_pixel m db x y = .error .noPixelData ∧
    handle_user_rows (.typeErr e) = .error (.scyllaTypeErr e) ∧
    handle_pixel_rows (.typeErr e2) = .error (.scyllaTypeErr e2) ∧
    VpError.scyllaTypeErr e ≠ VpError.invalidUser ∧
    VpError.scyllaTypeErr e2 ≠ VpError.noPixelData := by
  refine ⟨?_, ?_, rfl, rfl, by simp, by simp⟩
  · unfold get_user userRowsOf
    rw [hu]
    rfl
  · unfold get_pixel
    rw [show i32_try_from_u32 x = .ok (Int.ofNat x) from by
          simp only [i32_try_from_u32, if_pos hx],
        show i32_try_from_u32 y = .ok (Int.ofNat y) from by
          simp only [i32_try_from_u32, if_pos hy]]
    simp only [List.getD_eq_getElem?_getD, Int.ofNat_eq_coe] at hp
    simp [pixelRowsOf, handle_pixel_rows, hp]

/-- C9 witness: on the empty database, `get_user "B"` yields
`InvalidUser`, `get_pixel 7 9` yields `NoPixelData`, and decode
mismatches yield the distinct typed error. -/
theorem C9_not_found_vs_decode_witness :
    get_user DbState.empty "B" = .error .invalidUser ∧
    get_pixel mTest DbState.empty 7 9 = .error .noPixelData ∧
    handle_user_rows (.typeErr 0) = .error (.scyllaTypeErr 0) ∧
    handle_pixel_rows (.typeErr 1) = .error (.scyllaTypeErr 1) ∧
    VpError.scyllaTypeErr 0 ≠ VpError.invalidUser ∧
    VpError.scyllaTypeErr 1 ≠ VpError.noPixelData :=
  C9_not_found_vs_decode mTest DbState.empty "B" 7 9 0 1 rfl
    (by norm_num) (by norm_num) rfl

/-- C10: when x or y does not fit a 32-bit signed integer, `get_pixel`
returns the range/conversion error — the same result for every database
state, so the error is raised before any query is issued; this outcome
is outside the spec's listed interface `PixelValue | NoPixelData |
DecodeError`. -/
theorem C10_get_pixel_range_error (m : ScyllaManager) (db : DbState)
    (x y : Nat) (h : 2 ^ 31 ≤ x ∨ 2 ^ 31 ≤ y) :
    get_pixel m db x y = .error .rangeError := by
  unfold get_pixel
  rcases h with h | h
  · rw [show i32_try_from_u32 x = .error .rangeError from by
        simp only [i32_try_from_u32, if_neg (Nat.not_lt.mpr h)]]
  · by_cases hx : x < 2 ^ 31
    · rw [show i32_try_from_u32 x = .ok (Int.ofNat x) from by
            simp only [i32_try_from_u32, if_pos hx],
          show i32_try_from_u32 y = .error .rangeError from by
            simp only [i32_try_from_u32, if_neg (Nat.not_lt.mpr h)]]
    · rw [show i32_try_from_u32 x = .error .rangeError from by
          simp only [i32_try_from_u32, if_neg hx]]

/-- C10 witness: `get_pixel` at x = 2^31 on the empty database yields
the range error. -/
theorem C10_get_pixel_range_error_witness :
    get_pixel mTest DbState.empty (2 ^ 31) 0 = .error .rangeError :=
  C10_get_pixel_range_error mTest DbState.empty (2 ^ 31) 0
    (Or.inl (by norm_num))

end OpbnbPlace
